import Mathlib

/-!
Verification development for the CGBERT context-gated attention model
(src/code/model/CGBERT.py). Tensors are shallowly embedded as functions
from `Fin`-indexed coordinates to real numbers; PyTorch modules become
weight structures plus forward functions. Dropout layers are modelled in
evaluation mode, where they are the identity. All definitions follow the
source code line by line; definitions whose name starts with `claimed`
or `spec` follow a spec sentence instead, for comparison.
-/

namespace CGBERT

/-- A dense real vector with n coordinates (one tensor slice along the last
dimension). -/
abbrev Vec (n : ℕ) := Fin n → ℝ

/-- A (batch, seq_len, features) tensor. -/
abbrev Tensor3 (B S H : ℕ) := Fin B → Fin S → Vec H

/-- torch.nn.Linear with weight W (out x in) and bias b: y = W x + b. -/
def linear {m n : ℕ} (W : Fin m → Fin n → ℝ) (b : Vec m) (x : Vec n) : Vec m :=
  fun i => (∑ j, W i j * x j) + b i

/-- torch.nn.Sigmoid: sigmoid x = 1 / (1 + exp (-x)). -/
noncomputable def sigmoid (x : ℝ) : ℝ := 1 / (1 + Real.exp (-x))

/-- torch.nn.Softmax over the last axis of a length-S vector. -/
noncomputable def softmax {S : ℕ} (v : Vec S) : Vec S :=
  fun i => Real.exp (v i) / ∑ j, Real.exp (v j)

/-- Flat index of coordinate d of head h inside the all_head_size dimension:
the inverse of the reshape (seq, heads*head_size) -> (seq, heads, head_size)
performed by transpose_for_scores. -/
def headIdx {nh hd : ℕ} (h : Fin nh) (d : Fin hd) : Fin (nh * hd) :=
  ⟨h.val * hd + d.val, by
    have h1 : h.val + 1 ≤ nh := h.isLt
    calc h.val * hd + d.val < h.val * hd + hd := by
          exact Nat.add_lt_add_left d.isLt _
      _ = (h.val + 1) * hd := by ring
      _ ≤ nh * hd := Nat.mul_le_mul_right hd h1⟩

/-- Head of a flat all_head_size index (used in the final view back to
(batch, seq_len, hidden_size)). -/
def headOf {nh hd : ℕ} (e : Fin (nh * hd)) : Fin nh :=
  ⟨e.val / hd, by
    have h0 : 0 < hd := by
      rcases Nat.eq_zero_or_pos hd with h | h
      · exact absurd e.isLt (by simp [h])
      · exact h
    exact (Nat.div_lt_iff_lt_mul h0).mpr e.isLt⟩

/-- Position within the head of a flat all_head_size index. -/
def dimOf {nh hd : ℕ} (e : Fin (nh * hd)) : Fin hd :=
  ⟨e.val % hd, by
    have h0 : 0 < hd := by
      rcases Nat.eq_zero_or_pos hd with h | h
      · exact absurd e.isLt (by simp [h])
      · exact h
    exact Nat.mod_lt _ h0⟩

/-- ContextBERTSelfAttention.transpose_for_scores: view the last dimension
as (num_heads, head_size) and permute to (heads, seq, head_size). -/
def transpose_for_scores {S nh hd : ℕ} (x : Fin S → Vec (nh * hd)) :
    Fin nh → Fin S → Vec hd :=
  fun h s d => x s (headIdx h d)

/-- Learned parameters of ContextBERTSelfAttention (query/key/value dense
layers, the context_for_q/k projections, and the four bias-free
lambda layers of size head_size -> 1). -/
structure SelfAttnWeights (nh hd : ℕ) where
  query_w : Fin (nh * hd) → Fin (nh * hd) → ℝ
  query_b : Vec (nh * hd)
  key_w : Fin (nh * hd) → Fin (nh * hd) → ℝ
  key_b : Vec (nh * hd)
  value_w : Fin (nh * hd) → Fin (nh * hd) → ℝ
  value_b : Vec (nh * hd)
  context_for_q_w : Fin hd → Fin hd → ℝ
  context_for_q_b : Vec hd
  context_for_k_w : Fin hd → Fin hd → ℝ
  context_for_k_b : Vec hd
  lambda_q_context_w : Vec hd
  lambda_q_query_w : Vec hd
  lambda_k_context_w : Vec hd
  lambda_k_key_w : Vec hd

variable {B S nh hd : ℕ}

/-- mixed_query_layer after transpose_for_scores: per (batch, head, position)
slice of the query projection of hidden_states. -/
def mixed_query_layer (w : SelfAttnWeights nh hd)
    (hidden_states : Tensor3 B S (nh * hd)) : Fin B → Fin nh → Fin S → Vec hd :=
  fun b => transpose_for_scores (fun s => linear w.query_w w.query_b (hidden_states b s))

/-- mixed_key_layer after transpose_for_scores. -/
def mixed_key_layer (w : SelfAttnWeights nh hd)
    (hidden_states : Tensor3 B S (nh * hd)) : Fin B → Fin nh → Fin S → Vec hd :=
  fun b => transpose_for_scores (fun s => linear w.key_w w.key_b (hidden_states b s))

/-- value_layer: transpose_for_scores of the value projection of
hidden_states. The context tensor is not an argument: the value path never
sees it. -/
def value_layer (w : SelfAttnWeights nh hd)
    (hidden_states : Tensor3 B S (nh * hd)) : Fin B → Fin nh → Fin S → Vec hd :=
  fun b => transpose_for_scores (fun s => linear w.value_w w.value_b (hidden_states b s))

/-- context_embedded after transpose_for_scores: the context tensor viewed
per head (identical across heads before the per-head projections). -/
def context_embedded_t (context_embedded : Tensor3 B S (nh * hd)) :
    Fin B → Fin nh → Fin S → Vec hd :=
  fun b => transpose_for_scores (context_embedded b)

/-- context_embedded_q = context_for_q(context_embedded). -/
def context_embedded_q (w : SelfAttnWeights nh hd)
    (context_embedded : Tensor3 B S (nh * hd)) : Fin B → Fin nh → Fin S → Vec hd :=
  fun b h s => linear w.context_for_q_w w.context_for_q_b (context_embedded_t context_embedded b h s)

/-- context_embedded_k = context_for_k(context_embedded). -/
def context_embedded_k (w : SelfAttnWeights nh hd)
    (context_embedded : Tensor3 B S (nh * hd)) : Fin B → Fin nh → Fin S → Vec hd :=
  fun b h s => linear w.context_for_k_w w.context_for_k_b (context_embedded_t context_embedded b h s)

/-- lambda_q = sigmoid(lambda_q_context_layer(context_embedded_q) +
lambda_q_query_layer(mixed_query_layer)); the two bias-free layers map
head_size to 1, so this is one scalar per (batch, head, position). -/
noncomputable def lambda_q (w : SelfAttnWeights nh hd)
    (hidden_states context_embedded : Tensor3 B S (nh * hd)) :
    Fin B → Fin nh → Fin S → ℝ :=
  fun b h s => sigmoid
    ((∑ d, w.lambda_q_context_w d * context_embedded_q w context_embedded b h s d) +
     (∑ d, w.lambda_q_query_w d * mixed_query_layer w hidden_states b h s d))

/-- lambda_k, built like lambda_q from the key-side weights. -/
noncomputable def lambda_k (w : SelfAttnWeights nh hd)
    (hidden_states context_embedded : Tensor3 B S (nh * hd)) :
    Fin B → Fin nh → Fin S → ℝ :=
  fun b h s => sigmoid
    ((∑ d, w.lambda_k_context_w d * context_embedded_k w context_embedded b h s d) +
     (∑ d, w.lambda_k_key_w d * mixed_key_layer w hidden_states b h s d))

/-- contextualized_query_layer = (1 - lambda_q) * mixed_query_layer +
lambda_q * context_embedded_q. -/
noncomputable def contextualized_query_layer (w : SelfAttnWeights nh hd)
    (hidden_states context_embedded : Tensor3 B S (nh * hd)) :
    Fin B → Fin nh → Fin S → Vec hd :=
  fun b h s d =>
    (1 - lambda_q w hidden_states context_embedded b h s) * mixed_query_layer w hidden_states b h s d +
    lambda_q w hidden_states context_embedded b h s * context_embedded_q w context_embedded b h s d

/-- contextualized_key_layer = (1 - lambda_k) * mixed_key_layer +
lambda_k * context_embedded_k. -/
noncomputable def contextualized_key_layer (w : SelfAttnWeights nh hd)
    (hidden_states context_embedded : Tensor3 B S (nh * hd)) :
    Fin B → Fin nh → Fin S → Vec hd :=
  fun b h s d =>
    (1 - lambda_k w hidden_states context_embedded b h s) * mixed_key_layer w hidden_states b h s d +
    lambda_k w hidden_states context_embedded b h s * context_embedded_k w context_embedded b h s d

/-- attention_scores = contextualized_query . contextualized_key^T, divided
by sqrt(head_size), plus the additive attention mask (the mask has shape
(batch, 1, 1, seq) in the source and broadcasts over heads and query
positions, so it is indexed here by batch and key position). -/
noncomputable def attention_scores (w : SelfAttnWeights nh hd)
    (hidden_states : Tensor3 B S (nh * hd)) (attention_mask : Fin B → Fin S → ℝ)
    (context_embedded : Tensor3 B S (nh * hd)) :
    Fin B → Fin nh → Fin S → Fin S → ℝ :=
  fun b h i j =>
    (∑ d, contextualized_query_layer w hidden_states context_embedded b h i d *
          contextualized_key_layer w hidden_states context_embedded b h j d) /
      Real.sqrt hd + attention_mask b j

/-- attention_probs: softmax of the attention scores over the key-position
axis (the attention dropout is the identity in evaluation mode). -/
noncomputable def attention_probs (w : SelfAttnWeights nh hd)
    (hidden_states : Tensor3 B S (nh * hd)) (attention_mask : Fin B → Fin S → ℝ)
    (context_embedded : Tensor3 B S (nh * hd)) :
    Fin B → Fin nh → Fin S → Fin S → ℝ :=
  fun b h i => softmax (attention_scores w hidden_states attention_mask context_embedded b h i)

/-- ContextBERTSelfAttention.forward: attention_probs @ value_layer, permuted
back and viewed as (batch, seq_len, all_head_size). -/
noncomputable def selfAttnForward (w : SelfAttnWeights nh hd)
    (hidden_states : Tensor3 B S (nh * hd)) (attention_mask : Fin B → Fin S → ℝ)
    (context_embedded : Tensor3 B S (nh * hd)) : Tensor3 B S (nh * hd) :=
  fun b s e =>
    ∑ j, attention_probs w hidden_states attention_mask context_embedded b (headOf e) s j *
         value_layer w hidden_states b (headOf e) j (dimOf e)

/-- The default variance epsilon of BERTLayerNorm (epsilon inside the square
root, TF style); every construction site uses the default. -/
noncomputable def variance_epsilon : ℝ := 1e-12

/-- Learned scale (gamma) and shift (beta) of BERTLayerNorm. -/
structure LayerNormWeights (H : ℕ) where
  gamma : Vec H
  beta : Vec H

/-- BERTLayerNorm.forward: normalize over the hidden dimension with mean and
biased variance, epsilon inside the square root, then scale and shift. -/
noncomputable def bertLayerNorm {H : ℕ} (ln : LayerNormWeights H) (x : Vec H) : Vec H :=
  let u := (∑ j, x j) / (H : ℝ)
  let s := (∑ j, (x j - u) ^ 2) / (H : ℝ)
  fun i => ln.gamma i * ((x i - u) / Real.sqrt (s + variance_epsilon)) + ln.beta i

/-- The Gauss error function, used by the exact gelu of the source. -/
noncomputable def erf (x : ℝ) : ℝ :=
  (2 / Real.sqrt Real.pi) * ∫ t in (0:ℝ)..x, Real.exp (-(t ^ 2))

/-- gelu(x) = x * 0.5 * (1 + erf(x / sqrt 2)) (the exact form of the source,
not the tanh approximation). -/
noncomputable def gelu (x : ℝ) : ℝ := x * 0.5 * (1 + erf (x / Real.sqrt 2))

/-- Weights of BERTSelfOutput: dense H -> H plus layer norm. -/
structure BERTSelfOutputWeights (H : ℕ) where
  dense_w : Fin H → Fin H → ℝ
  dense_b : Vec H
  ln : LayerNormWeights H

/-- BERTSelfOutput.forward: LayerNorm(Dropout(Dense(hidden)) + input), with
dropout the identity in evaluation mode. -/
noncomputable def bertSelfOutput {H : ℕ} (w : BERTSelfOutputWeights H)
    (hidden_states input_tensor : Vec H) : Vec H :=
  bertLayerNorm w.ln (fun i => linear w.dense_w w.dense_b hidden_states i + input_tensor i)

/-- Weights of BERTIntermediate: dense hidden_size -> intermediate_size. -/
structure BERTIntermediateWeights (I H : ℕ) where
  dense_w : Fin I → Fin H → ℝ
  dense_b : Vec I

/-- BERTIntermediate.forward: gelu(Dense(hidden)). -/
noncomputable def bertIntermediate {I H : ℕ} (w : BERTIntermediateWeights I H)
    (hidden_states : Vec H) : Vec I :=
  fun i => gelu (linear w.dense_w w.dense_b hidden_states i)

/-- Weights of BERTOutput: dense intermediate_size -> hidden_size plus layer
norm. -/
structure BERTOutputWeights (H I : ℕ) where
  dense_w : Fin H → Fin I → ℝ
  dense_b : Vec H
  ln : LayerNormWeights H

/-- BERTOutput.forward: LayerNorm(Dropout(Dense(hidden)) + input), with
dropout the identity in evaluation mode. -/
noncomputable def bertOutput {H I : ℕ} (w : BERTOutputWeights H I)
    (hidden_states : Vec I) (input_tensor : Vec H) : Vec H :=
  bertLayerNorm w.ln (fun i => linear w.dense_w w.dense_b hidden_states i + input_tensor i)

/-- Weights of one ContextBERTLayer: context-gated self-attention, its output
block, and the position-wise feed-forward pair. -/
structure ContextBERTLayerWeights (nh hd I : ℕ) where
  attention_self : SelfAttnWeights nh hd
  attention_output : BERTSelfOutputWeights (nh * hd)
  intermediate : BERTIntermediateWeights I (nh * hd)
  output : BERTOutputWeights (nh * hd) I

/-- ContextBERTLayer.forward (via ContextBERTAttention.forward): attention,
residual output block, intermediate gelu block, output block. -/
noncomputable def contextBertLayerForward {B S nh hd I : ℕ}
    (w : ContextBERTLayerWeights nh hd I) (hidden_states : Tensor3 B S (nh * hd))
    (attention_mask : Fin B → Fin S → ℝ) (context_embedded : Tensor3 B S (nh * hd)) :
    Tensor3 B S (nh * hd) :=
  let self_output := selfAttnForward w.attention_self hidden_states attention_mask context_embedded
  let attention_output := fun b s => bertSelfOutput w.attention_output (self_output b s) (hidden_states b s)
  let intermediate_output := fun b s => bertIntermediate w.intermediate (attention_output b s)
  fun b s => bertOutput w.output (intermediate_output b s) (attention_output b s)

/-- Weights of ContextBERTEncoder: one Linear(2*hidden, hidden) context
transform per layer (deep-copied, hence independent), and one
ContextBERTLayer per layer. -/
structure ContextBERTEncoderWeights (nh hd I N : ℕ) where
  context_layer_w : Fin N → Fin (nh * hd) → Fin (2 * (nh * hd)) → ℝ
  context_layer_b : Fin N → Vec (nh * hd)
  layer : Fin N → ContextBERTLayerWeights nh hd I

/-- torch.cat([x, y], dim=-1) on the feature dimension. -/
def catVec {H : ℕ} (x y : Vec H) : Vec (2 * H) :=
  fun j =>
    if h : j.val < H then x ⟨j.val, h⟩
    else y ⟨j.val - H, by have := j.isLt; omega⟩

/-- The per-layer context update of ContextBERTEncoder.forward:
deep_context_hidden = context_layer[i](cat([context_embeddings, hidden]))
+= context_embeddings. The residual and the concatenation both use the
encoder argument context_embeddings, which the loop never reassigns. -/
def deep_context_hidden {B S nh hd I N : ℕ} (w : ContextBERTEncoderWeights nh hd I N)
    (context_embeddings hidden_states : Tensor3 B S (nh * hd)) (i : Fin N) :
    Tensor3 B S (nh * hd) :=
  fun b s d =>
    linear (w.context_layer_w i) (w.context_layer_b i)
      (catVec (context_embeddings b s) (hidden_states b s)) d +
    context_embeddings b s d

/-- hidden_states after the first i layers of ContextBERTEncoder.forward
(the loop updates the context from the unchanged context_embeddings, then
runs the layer). Indices beyond N leave the state unchanged. -/
noncomputable def encoderHiddenAfter {B S nh hd I N : ℕ}
    (w : ContextBERTEncoderWeights nh hd I N) (hidden0 : Tensor3 B S (nh * hd))
    (attention_mask : Fin B → Fin S → ℝ) (context_embeddings : Tensor3 B S (nh * hd)) :
    ℕ → Tensor3 B S (nh * hd)
  | 0 => hidden0
  | i + 1 =>
    if h : i < N then
      contextBertLayerForward (w.layer ⟨i, h⟩)
        (encoderHiddenAfter w hidden0 attention_mask context_embeddings i)
        attention_mask
        (deep_context_hidden w context_embeddings
          (encoderHiddenAfter w hidden0 attention_mask context_embeddings i) ⟨i, h⟩)
    else encoderHiddenAfter w hidden0 attention_mask context_embeddings i

/-- The context tensor handed to layer i (0-based) by the encoder loop:
the context update applied to the original context_embeddings and the
hidden state produced by the previous i layers. -/
noncomputable def context_fed_to_layer {B S nh hd I N : ℕ}
    (w : ContextBERTEncoderWeights nh hd I N) (hidden0 : Tensor3 B S (nh * hd))
    (attention_mask : Fin B → Fin S → ℝ) (context_embeddings : Tensor3 B S (nh * hd))
    (i : Fin N) : Tensor3 B S (nh * hd) :=
  deep_context_hidden w context_embeddings
    (encoderHiddenAfter w hidden0 attention_mask context_embeddings i.val) i

/-- Modelled from the claim text, for comparison with the code: the context
recurrence in which layer i receives
Linear_i(cat(context_{i-1}, hidden_{i-1})) + context_{i-1}, where
context_{i-1} is the PREVIOUS LAYER'S updated context (context_0 being the
broadcast context embedding) and hiddenSeq i is the hidden state entering
layer i. claimedContext (i+1) is the context the claim says layer i gets. -/
def claimedContext {B S nh hd I N : ℕ} (w : ContextBERTEncoderWeights nh hd I N)
    (hiddenSeq : ℕ → Tensor3 B S (nh * hd)) (context0 : Tensor3 B S (nh * hd)) :
    ℕ → Tensor3 B S (nh * hd)
  | 0 => context0
  | i + 1 =>
    if h : i < N then
      fun b s d =>
        linear (w.context_layer_w ⟨i, h⟩) (w.context_layer_b ⟨i, h⟩)
          (catVec (claimedContext w hiddenSeq context0 i b s) (hiddenSeq i b s)) d +
        claimedContext w hiddenSeq context0 i b s d
    else claimedContext w hiddenSeq context0 i

/-- Weights of ContextBERTPooler used by its active forward path (dense
H -> H followed by tanh). The attention_gate sub-module of the source
belongs to a commented-out attention-pooling alternative and is never
applied in forward, so it carries no observable behavior. -/
structure ContextBERTPoolerWeights (H : ℕ) where
  dense_w : Fin H → Fin H → ℝ
  dense_b : Vec H

/-- ContextBERTPooler.forward: take the hidden state of the first token
(position 0; an empty sequence is an index error), apply the dense layer
and tanh. The attention_mask argument is accepted and ignored. -/
noncomputable def poolerForward {B S H : ℕ} (w : ContextBERTPoolerWeights H)
    (hidden_states : Tensor3 B S H) (attention_mask : Fin B → Fin S → ℝ) :
    Option (Fin B → Vec H) :=
  if h : 0 < S then
    some (fun b i => Real.tanh (linear w.dense_w w.dense_b (hidden_states b ⟨0, h⟩) i))
  else none

/-- ContextBERTSelfAttention.__init__ head-size computation: Python raises
ZeroDivisionError on `hidden_size % 0`, raises ValueError when hidden_size
is not a multiple of num_attention_heads, and otherwise stores
attention_head_size = hidden_size / num_attention_heads. -/
def selfAttnInit (hidden_size num_attention_heads : ℕ) : Except String ℕ :=
  if num_attention_heads = 0 then Except.error "ZeroDivisionError"
  else if hidden_size % num_attention_heads ≠ 0 then
    Except.error "ValueError: hidden size is not a multiple of the number of attention heads"
  else Except.ok (hidden_size / num_attention_heads)

/-- Embedding tables and layer norm of BERTEmbeddings. -/
structure BERTEmbeddingsWeights (H V maxP TV : ℕ) where
  word_embeddings : Fin V → Vec H
  position_embeddings : Fin maxP → Vec H
  token_type_embeddings : Fin TV → Vec H
  ln : LayerNormWeights H

/-- BERTEmbeddings.forward: token_type_ids defaults to all zeros when
omitted; word, position (0-based index within the sequence) and token-type
embeddings are summed, layer-normalized, and dropped out (identity in
evaluation mode). Any id outside its table, or a sequence longer than the
position table, is an index error. -/
noncomputable def bertEmbeddingsForward {B S H V maxP TV : ℕ}
    (w : BERTEmbeddingsWeights H V maxP TV) (input_ids : Fin B → Fin S → ℕ)
    (token_type_ids : Option (Fin B → Fin S → ℕ)) : Option (Tensor3 B S H) :=
  let tti := token_type_ids.getD (fun _ _ => 0)
  if h : (∀ b s, input_ids b s < V) ∧ (∀ b s, tti b s < TV) ∧ S ≤ maxP then
    some (fun b s => bertLayerNorm w.ln (fun i =>
      w.word_embeddings ⟨input_ids b s, h.1 b s⟩ i +
      w.position_embeddings ⟨s.val, lt_of_lt_of_le s.isLt h.2.2⟩ i +
      w.token_type_embeddings ⟨tti b s, h.2.1 b s⟩ i))
  else none

/-- The context embedding lookup of ContextBertModel.forward:
self.context_embeddings(context_ids).squeeze(dim=1), where the table is
nn.Embedding(2*4, hidden): an id outside [0, 8) is an index error. -/
def contextEmbLookup {B H : ℕ} (context_embeddings : Fin 8 → Vec H)
    (context_ids : Fin B → ℕ) : Option (Fin B → Vec H) :=
  if h : ∀ b, context_ids b < 8 then
    some (fun b => context_embeddings ⟨context_ids b, h b⟩)
  else none

/-- All parameters of ContextBertModel: embeddings, encoder, pooler, and the
nn.Embedding(2*4, hidden) context table. -/
structure ContextBertModelWeights (nh hd I N V maxP TV : ℕ) where
  embeddings : BERTEmbeddingsWeights (nh * hd) V maxP TV
  encoder : ContextBERTEncoderWeights nh hd I N
  pooler : ContextBERTPoolerWeights (nh * hd)
  context_embeddings : Fin 8 → Vec (nh * hd)

/-- ContextBertModel.forward: attention_mask defaults to all ones and
token_type_ids to all zeros when omitted; the extended additive mask is
(1 - mask) * -10000; the context embedding is looked up and broadcast
(torch.stack) over all sequence positions; the encoder runs N layers and
the pooler consumes the last hidden state (an empty layer list, N = 0,
is an index error at all_encoder_layers[-1], as is an empty sequence in
the pooler). -/
noncomputable def contextBertModelForward {B S nh hd I N V maxP TV : ℕ}
    (w : ContextBertModelWeights nh hd I N V maxP TV)
    (input_ids : Fin B → Fin S → ℕ)
    (token_type_ids : Option (Fin B → Fin S → ℕ))
    (attention_mask : Option (Fin B → Fin S → ℝ))
    (context_ids : Fin B → ℕ) : Option (Fin B → Vec (nh * hd)) :=
  let attn_mask := attention_mask.getD (fun _ _ => 1)
  let tti := token_type_ids.getD (fun _ _ => 0)
  let extended_attention_mask : Fin B → Fin S → ℝ := fun b s => (1 - attn_mask b s) * (-10000)
  do
    let embedding_output ← bertEmbeddingsForward w.embeddings input_ids (some tti)
    let context_embedded ← contextEmbLookup w.context_embeddings context_ids
    let context_embedding_output : Tensor3 B S (nh * hd) := fun b _ d => context_embedded b d
    let sequence_output :=
      encoderHiddenAfter w.encoder embedding_output extended_attention_mask
        context_embedding_output N
    if 0 < N then poolerForward w.pooler sequence_output attn_mask
    else none

/-- All-zero layer norm weights, for concrete instances. -/
def zeroLN (H : ℕ) : LayerNormWeights H := ⟨fun _ => 0, fun _ => 0⟩

/-- All-zero self-attention weights, for concrete instances. -/
def zeroAttnW (nh hd : ℕ) : SelfAttnWeights nh hd :=
  ⟨fun _ _ => 0, fun _ => 0, fun _ _ => 0, fun _ => 0, fun _ _ => 0, fun _ => 0,
   fun _ _ => 0, fun _ => 0, fun _ _ => 0, fun _ => 0,
   fun _ => 0, fun _ => 0, fun _ => 0, fun _ => 0⟩

/-- All-zero ContextBERTLayer weights, for concrete instances. -/
def zeroLayerW (nh hd I : ℕ) : ContextBERTLayerWeights nh hd I :=
  ⟨zeroAttnW nh hd, ⟨fun _ _ => 0, fun _ => 0, zeroLN _⟩,
   ⟨fun _ _ => 0, fun _ => 0⟩, ⟨fun _ _ => 0, fun _ => 0, zeroLN _⟩⟩

/-- Self-attention weights with every gate (lambda) weight and every
context_for_q/k weight and bias set to zero, and query and key bias one so
that the query and key projections are nonzero: the concrete instance for
the gate-zero regression claim. -/
def c3CexAttnW : SelfAttnWeights 1 1 :=
  { zeroAttnW 1 1 with query_b := fun _ => 1, key_b := fun _ => 1 }

/-- Encoder weights at nh = hd = I = 1, N = 2, whose per-layer context
transforms have zero weight and bias one: the concrete instance separating
the code's context update from the claimed recurrent one. -/
def c1CexEncoderW : ContextBERTEncoderWeights 1 1 1 2 :=
  ⟨fun _ _ _ => 0, fun _ _ => 1, fun _ => zeroLayerW 1 1 1⟩

/-- All-zero model weights at every dimension equal to 1, used to
instantiate full-model theorems at a concrete input. -/
def zeroModelW : ContextBertModelWeights 1 1 1 1 1 1 1 :=
  ⟨⟨fun _ _ => 0, fun _ _ => 0, fun _ _ => 0, zeroLN _⟩,
   ⟨fun _ _ _ => 0, fun _ _ => 0, fun _ => zeroLayerW 1 1 1⟩,
   ⟨fun _ _ => 0, fun _ => 0⟩,
   fun _ _ => 0⟩

/-- An all-ones (batch 1, seq 1, hidden 1) tensor. -/
def onesT : Tensor3 1 1 (1 * 1) := fun _ _ _ => 1

/-- An all-zero (batch 1, seq 1, hidden 1) tensor. -/
def zerosT : Tensor3 1 1 (1 * 1) := fun _ _ _ => 0

/-- All-zero pooler weights at hidden size 1, for the pooler witness. -/
def poolW1 : ContextBERTPoolerWeights 1 := ⟨fun _ _ => 0, fun _ => 0⟩

/-- An all-zero (batch 1, seq 1, hidden 1) final hidden state, for the
pooler witness. -/
def zeroHidden1 : Tensor3 1 1 1 := fun _ _ _ => 0

/-- The sigmoid is strictly positive. -/
theorem sigmoid_pos (x : ℝ) : 0 < sigmoid x := by
  unfold sigmoid
  positivity

/-- The sigmoid is strictly below one. -/
theorem sigmoid_lt_one (x : ℝ) : sigmoid x < 1 := by
  unfold sigmoid
  rw [div_lt_one (by positivity)]
  linarith [Real.exp_pos (-x)]

/-- sigmoid 0 = 1/2. -/
theorem sigmoid_zero : sigmoid 0 = 1 / 2 := by
  unfold sigmoid
  rw [neg_zero, Real.exp_zero]
  norm_num

/-- Softmax entries are nonnegative. -/
theorem softmax_nonneg {S : ℕ} (v : Vec S) (i : Fin S) : 0 ≤ softmax v i := by
  unfold softmax
  have h1 : 0 ≤ Real.exp (v i) := le_of_lt (Real.exp_pos _)
  have h2 : 0 ≤ ∑ j, Real.exp (v j) :=
    Finset.sum_nonneg (fun j _ => le_of_lt (Real.exp_pos _))
  exact div_nonneg h1 h2

/-- Softmax of a nonempty vector sums to one. -/
theorem softmax_sum_eq_one {S : ℕ} (hS : 0 < S) (v : Vec S) :
    ∑ i, softmax v i = 1 := by
  unfold softmax
  rw [← Finset.sum_div]
  apply div_self
  have hne : (Finset.univ : Finset (Fin S)).Nonempty := ⟨⟨0, hS⟩, Finset.mem_univ _⟩
  exact ne_of_gt (Finset.sum_pos (fun j _ => Real.exp_pos _) hne)

/-- C2: in context-gated self-attention, the query gate is
sigmoid(lambda_q_context_layer(context_for_q(context)) +
lambda_q_query_layer(query)) with the two bias-free linear maps reducing
head_size to 1 (one scalar per batch, head, position), the contextualized
query is (1 - gate) * query + gate * context_for_q(context), and the same
construction with the independent key-side weights yields the key gate and
contextualized key. -/
theorem c2_gate_and_interpolation {B S nh hd : ℕ} (w : SelfAttnWeights nh hd)
    (hidden_states context_embedded : Tensor3 B S (nh * hd))
    (b : Fin B) (h : Fin nh) (s : Fin S) :
    (lambda_q w hidden_states context_embedded b h s =
      sigmoid
        ((∑ d, w.lambda_q_context_w d *
            linear w.context_for_q_w w.context_for_q_b
              (fun e => context_embedded b s (headIdx h e)) d) +
         (∑ d, w.lambda_q_query_w d *
            linear w.query_w w.query_b (hidden_states b s) (headIdx h d)))) ∧
    (∀ d, contextualized_query_layer w hidden_states context_embedded b h s d =
      (1 - lambda_q w hidden_states context_embedded b h s) *
        mixed_query_layer w hidden_states b h s d +
      lambda_q w hidden_states context_embedded b h s *
        context_embedded_q w context_embedded b h s d) ∧
    (lambda_k w hidden_states context_embedded b h s =
      sigmoid
        ((∑ d, w.lambda_k_context_w d *
            linear w.context_for_k_w w.context_for_k_b
              (fun e => context_embedded b s (headIdx h e)) d) +
         (∑ d, w.lambda_k_key_w d *
            linear w.key_w w.key_b (hidden_states b s) (headIdx h d)))) ∧
    (∀ d, contextualized_key_layer w hidden_states context_embedded b h s d =
      (1 - lambda_k w hidden_states context_embedded b h s) *
        mixed_key_layer w hidden_states b h s d +
      lambda_k w hidden_states context_embedded b h s *
        context_embedded_k w context_embedded b h s d) :=
  ⟨rfl, fun _ => rfl, rfl, fun _ => rfl⟩

/-- C6: both gate values, produced by the sigmoid activation, lie strictly
within the open interval (0, 1) for every input. -/
theorem c6_gates_in_open_unit_interval {B S nh hd : ℕ} (w : SelfAttnWeights nh hd)
    (hidden_states context_embedded : Tensor3 B S (nh * hd))
    (b : Fin B) (h : Fin nh) (s : Fin S) :
    (0 < lambda_q w hidden_states context_embedded b h s ∧
     lambda_q w hidden_states context_embedded b h s < 1) ∧
    (0 < lambda_k w hidden_states context_embedded b h s ∧
     lambda_k w hidden_states context_embedded b h s < 1) :=
  ⟨⟨sigmoid_pos _, sigmoid_lt_one _⟩, ⟨sigmoid_pos _, sigmoid_lt_one _⟩⟩

/-- C4: the value path never depends on the context tensor: the value tensor
is the plain linear projection of hidden_states, transposed per head and
with no gating applied, and the attention output is attention_probs @ value
viewed back as (batch, seq_len, hidden_size). The value factor in the
output product is `value_layer w hidden_states`, which takes no context
argument, so two calls differing only in the context tensor share it. -/
theorem c4_value_path_context_free {B S nh hd : ℕ} (w : SelfAttnWeights nh hd)
    (hidden_states : Tensor3 B S (nh * hd)) (attention_mask : Fin B → Fin S → ℝ)
    (b : Fin B) (s : Fin S) :
    (∀ (h : Fin nh) (j : Fin S) (d : Fin hd),
      value_layer w hidden_states b h j d =
        linear w.value_w w.value_b (hidden_states b j) (headIdx h d)) ∧
    (∀ (context_embedded : Tensor3 B S (nh * hd)) (e : Fin (nh * hd)),
      selfAttnForward w hidden_states attention_mask context_embedded b s e =
        ∑ j, attention_probs w hidden_states attention_mask context_embedded b (headOf e) s j *
             value_layer w hidden_states b (headOf e) j (dimOf e)) :=
  ⟨fun _ _ _ => rfl, fun _ _ => rfl⟩

/-- C5: the attention scores are (contextualized_query .
contextualized_key^T) / sqrt(head_size) plus the additive attention mask,
and after the softmax over the key-position axis the probabilities are
nonnegative and sum to 1 for every (batch, head, query position). -/
theorem c5_scores_and_probabilities {B S nh hd : ℕ} (w : SelfAttnWeights nh hd)
    (hidden_states : Tensor3 B S (nh * hd)) (attention_mask : Fin B → Fin S → ℝ)
    (context_embedded : Tensor3 B S (nh * hd))
    (b : Fin B) (h : Fin nh) (i : Fin S) :
    (∀ j, attention_scores w hidden_states attention_mask context_embedded b h i j =
      (∑ d, contextualized_query_layer w hidden_states context_embedded b h i d *
            contextualized_key_layer w hidden_states context_embedded b h j d) /
        Real.sqrt hd + attention_mask b j) ∧
    (∑ j, attention_probs w hidden_states attention_mask context_embedded b h i j = 1) ∧
    (∀ j, 0 ≤ attention_probs w hidden_states attention_mask context_embedded b h i j) :=
  ⟨fun _ => rfl,
   softmax_sum_eq_one i.pos _,
   fun j => softmax_nonneg _ j⟩

/-- C3 counterexample: with every gate-producing (lambda) weight at zero and
the context-to-query projection weights and biases at zero (the instance
c3CexAttnW), the gate is sigmoid 0 = 1/2, so the contextualized query is
half of the query, not the query itself: at an input whose query projection
is 1, the contextualized query is 1/2. -/
theorem c3_counterexample :
    contextualized_query_layer c3CexAttnW onesT zerosT 0 0 0 0 ≠
    mixed_query_layer c3CexAttnW onesT 0 0 0 0 := by
  have hq : mixed_query_layer c3CexAttnW onesT 0 0 0 0 = 1 := by
    simp [mixed_query_layer, transpose_for_scores, linear, c3CexAttnW, zeroAttnW, onesT]
  have hcq : context_embedded_q c3CexAttnW zerosT 0 0 0 0 = 0 := by
    simp [context_embedded_q, context_embedded_t, transpose_for_scores, linear,
      c3CexAttnW, zeroAttnW, zerosT]
  have hl : lambda_q c3CexAttnW onesT zerosT 0 0 0 = 1 / 2 := by
    simp only [lambda_q]
    have h1 : (∑ d, c3CexAttnW.lambda_q_context_w d *
        context_embedded_q c3CexAttnW zerosT 0 0 0 d) = 0 := by
      simp [c3CexAttnW, zeroAttnW]
    have h2 : (∑ d, c3CexAttnW.lambda_q_query_w d *
        mixed_query_layer c3CexAttnW onesT 0 0 0 d) = 0 := by
      simp [c3CexAttnW, zeroAttnW]
    rw [h1, h2, add_zero, sigmoid_zero]
  have hc : contextualized_query_layer c3CexAttnW onesT zerosT 0 0 0 0 = 1 / 2 := by
    simp only [contextualized_query_layer, hl, hq, hcq]
    norm_num
  rw [hc, hq]
  norm_num

/-- C3 amended: if all gate-producing (lambda) weights are zero and the
context-to-query/key projection weights and biases are zero, then both
gates are exactly 1/2 and the contextualized query and key are HALF the
query and key respectively (the interpolation halves the vanilla path
rather than reducing to it). -/
theorem c3_amended_half_gates {B S nh hd : ℕ} (w : SelfAttnWeights nh hd)
    (hqc : w.lambda_q_context_w = fun _ => 0) (hqq : w.lambda_q_query_w = fun _ => 0)
    (hkc : w.lambda_k_context_w = fun _ => 0) (hkk : w.lambda_k_key_w = fun _ => 0)
    (hcqw : w.context_for_q_w = fun _ _ => 0) (hcqb : w.context_for_q_b = fun _ => 0)
    (hckw : w.context_for_k_w = fun _ _ => 0) (hckb : w.context_for_k_b = fun _ => 0)
    (hidden_states context_embedded : Tensor3 B S (nh * hd))
    (b : Fin B) (h : Fin nh) (s : Fin S) :
    lambda_q w hidden_states context_embedded b h s = 1 / 2 ∧
    (∀ d, contextualized_query_layer w hidden_states context_embedded b h s d =
      mixed_query_layer w hidden_states b h s d / 2) ∧
    lambda_k w hidden_states context_embedded b h s = 1 / 2 ∧
    (∀ d, contextualized_key_layer w hidden_states context_embedded b h s d =
      mixed_key_layer w hidden_states b h s d / 2) := by
  have hceq : ∀ d, context_embedded_q w context_embedded b h s d = 0 := by
    intro d
    simp [context_embedded_q, linear, hcqw, hcqb]
  have hcek : ∀ d, context_embedded_k w context_embedded b h s d = 0 := by
    intro d
    simp [context_embedded_k, linear, hckw, hckb]
  have hlq : lambda_q w hidden_states context_embedded b h s = 1 / 2 := by
    simp only [lambda_q, hqc, hqq, zero_mul, Finset.sum_const_zero, add_zero]
    exact sigmoid_zero
  have hlk : lambda_k w hidden_states context_embedded b h s = 1 / 2 := by
    simp only [lambda_k, hkc, hkk, zero_mul, Finset.sum_const_zero, add_zero]
    exact sigmoid_zero
  refine ⟨hlq, fun d => ?_, hlk, fun d => ?_⟩
  · simp only [contextualized_query_layer, hlq, hceq d, mul_zero, add_zero]
    ring
  · simp only [contextualized_key_layer, hlk, hcek d, mul_zero, add_zero]
    ring

/-- Witness for the amended C3 at the concrete instance c3CexAttnW. -/
theorem c3_amended_witness :
    lambda_q c3CexAttnW onesT zerosT 0 0 0 = 1 / 2 ∧
    contextualized_query_layer c3CexAttnW onesT zerosT 0 0 0 0 =
      mixed_query_layer c3CexAttnW onesT 0 0 0 0 / 2 ∧
    lambda_k c3CexAttnW onesT zerosT 0 0 0 = 1 / 2 ∧
    contextualized_key_layer c3CexAttnW onesT zerosT 0 0 0 0 =
      mixed_key_layer c3CexAttnW onesT 0 0 0 0 / 2 := by
  obtain ⟨h1, h2, h3, h4⟩ :=
    c3_amended_half_gates c3CexAttnW rfl rfl rfl rfl rfl rfl rfl rfl onesT zerosT 0 0 0
  exact ⟨h1, h2 0, h3, h4 0⟩

/-- C1 amended: the context handed to layer i by the encoder loop is
Linear_i(cat(context_0, hidden_{i-1})) + context_0, where context_0 is the
UNCHANGED context_embeddings argument of the encoder (the loop never feeds
one layer's updated context into the next update), and the hidden state
after layer i is the layer applied to that context. -/
theorem c1_amended_context_from_original {B S nh hd I N : ℕ}
    (w : ContextBERTEncoderWeights nh hd I N) (hidden0 : Tensor3 B S (nh * hd))
    (attention_mask : Fin B → Fin S → ℝ) (context0 : Tensor3 B S (nh * hd))
    (i : Fin N) :
    (∀ b s d, context_fed_to_layer w hidden0 attention_mask context0 i b s d =
      linear (w.context_layer_w i) (w.context_layer_b i)
        (catVec (context0 b s)
          (encoderHiddenAfter w hidden0 attention_mask context0 i.val b s)) d +
      context0 b s d) ∧
    encoderHiddenAfter w hidden0 attention_mask context0 (i.val + 1) =
      contextBertLayerForward (w.layer i)
        (encoderHiddenAfter w hidden0 attention_mask context0 i.val) attention_mask
        (context_fed_to_layer w hidden0 attention_mask context0 i) := by
  refine ⟨fun b s d => rfl, ?_⟩
  rw [encoderHiddenAfter, dif_pos i.isLt]
  rfl

/-- C1 counterexample: with two layers whose context transforms have zero
weight and bias one, and zero initial context, the code feeds context 1 to
the second layer (it recombines the ORIGINAL context embedding), while the
claimed recurrence, which feeds the previous layer's updated context into
the next update, yields 2. -/
theorem c1_counterexample :
    context_fed_to_layer c1CexEncoderW zerosT (fun _ _ => 0) zerosT
      ⟨1, by norm_num⟩ 0 0 ⟨0, by norm_num⟩ ≠
    claimedContext c1CexEncoderW
      (encoderHiddenAfter c1CexEncoderW zerosT (fun _ _ => 0) zerosT) zerosT 2
      0 0 ⟨0, by norm_num⟩ := by
  have hL : context_fed_to_layer c1CexEncoderW zerosT (fun _ _ => 0) zerosT
      ⟨1, by norm_num⟩ 0 0 ⟨0, by norm_num⟩ = 1 := by
    simp [context_fed_to_layer, deep_context_hidden, linear, c1CexEncoderW, zerosT]
  have hc1 : ∀ (b s : Fin 1) (d : Fin (1 * 1)), claimedContext c1CexEncoderW
      (encoderHiddenAfter c1CexEncoderW zerosT (fun _ _ => 0) zerosT) zerosT 1 b s d = 1 := by
    intro b s d
    show claimedContext c1CexEncoderW
      (encoderHiddenAfter c1CexEncoderW zerosT (fun _ _ => 0) zerosT) zerosT (0 + 1) b s d = 1
    rw [claimedContext, dif_pos (by norm_num : (0 : ℕ) < 2)]
    simp [claimedContext, linear, c1CexEncoderW, zerosT]
  have hR : claimedContext c1CexEncoderW
      (encoderHiddenAfter c1CexEncoderW zerosT (fun _ _ => 0) zerosT) zerosT 2
      0 0 ⟨0, by norm_num⟩ = 2 := by
    show claimedContext c1CexEncoderW
      (encoderHiddenAfter c1CexEncoderW zerosT (fun _ _ => 0) zerosT) zerosT (1 + 1)
      0 0 ⟨0, by norm_num⟩ = 2
    rw [claimedContext, dif_pos (by norm_num : (1 : ℕ) < 2)]
    rw [hc1]
    simp [linear, c1CexEncoderW]
    norm_num
  rw [hL, hR]
  norm_num

/-- C7: pooling applies tanh(Dense(.)) to the hidden state of the token at
sequence position 0; the result is one hidden_size vector per batch
element, and it is identical for any two values of the attention-mask
argument, which the active code path never reads. -/
theorem c7_pooler_first_token_mask_free {B S H : ℕ} (w : ContextBERTPoolerWeights H)
    (hidden_states : Tensor3 B S H) (m1 m2 : Fin B → Fin S → ℝ) (hS : 0 < S) :
    poolerForward w hidden_states m1 = poolerForward w hidden_states m2 ∧
    poolerForward w hidden_states m1 =
      some (fun b i =>
        Real.tanh (linear w.dense_w w.dense_b (hidden_states b ⟨0, hS⟩) i)) := by
  refine ⟨rfl, ?_⟩
  rw [poolerForward, dif_pos hS]

/-- Witness for C7 at a concrete one-element instance. -/
theorem c7_pooler_witness :
    poolerForward poolW1 zeroHidden1 (fun _ _ => 0) =
      poolerForward poolW1 zeroHidden1 (fun _ _ => 1) ∧
    poolerForward poolW1 zeroHidden1 (fun _ _ => 0) =
      some (fun b i =>
        Real.tanh (linear poolW1.dense_w poolW1.dense_b (zeroHidden1 b ⟨0, by norm_num⟩) i)) :=
  c7_pooler_first_token_mask_free poolW1 zeroHidden1
    (fun _ _ => 0) (fun _ _ => 1) (by norm_num)

/-- C8 counterexample: with hidden_size = 0 and num_attention_heads = 0 the
remainder is 0, i.e. hidden_size IS evenly divisible by the head count, yet
construction fails (Python raises ZeroDivisionError at the modulo), so
construction failure is not equivalent to non-divisibility. -/
theorem c8_counterexample :
    selfAttnInit 0 0 = Except.error "ZeroDivisionError" ∧ (0 : ℕ) % 0 = 0 :=
  ⟨rfl, rfl⟩

/-- C8 amended: for a positive number of attention heads, construction
fails with a ValueError exactly when hidden_size is not evenly divisible by
num_attention_heads, and otherwise succeeds with
head_dim = hidden_size / num_attention_heads. (With zero heads the modulo
itself raises a ZeroDivisionError.) -/
theorem c8_amended_init_check (hidden_size num_attention_heads : ℕ)
    (hpos : 0 < num_attention_heads) :
    (hidden_size % num_attention_heads ≠ 0 →
      selfAttnInit hidden_size num_attention_heads =
        Except.error "ValueError: hidden size is not a multiple of the number of attention heads") ∧
    (hidden_size % num_attention_heads = 0 →
      selfAttnInit hidden_size num_attention_heads =
        Except.ok (hidden_size / num_attention_heads)) ∧
    (∀ e, selfAttnInit hidden_size num_attention_heads = Except.error e →
      hidden_size % num_attention_heads ≠ 0) := by
  have hz : num_attention_heads ≠ 0 := Nat.pos_iff_ne_zero.mp hpos
  refine ⟨fun hmod => ?_, fun hmod => ?_, fun e herr hmod => ?_⟩
  · rw [selfAttnInit, if_neg hz, if_pos hmod]
  · rw [selfAttnInit, if_neg hz, if_neg (by simp [hmod])]
  · rw [selfAttnInit, if_neg hz, if_neg (by simp [hmod])] at herr
    exact Except.noConfusion herr

/-- Witness for the amended C8 at hidden_size 8 and 2 heads. -/
theorem c8_amended_init_check_witness :
    ((8 : ℕ) % 2 ≠ 0 →
      selfAttnInit 8 2 =
        Except.error "ValueError: hidden size is not a multiple of the number of attention heads") ∧
    ((8 : ℕ) % 2 = 0 → selfAttnInit 8 2 = Except.ok (8 / 2)) ∧
    (∀ e, selfAttnInit 8 2 = Except.error e → (8 : ℕ) % 2 ≠ 0) :=
  c8_amended_init_check 8 2 (by norm_num)

/-- C9: a context id at or above the configured context vocabulary size
(2*4 = 8) makes the forward call fail with an indexing error (no silent
wraparound); ids below 8 make the context embedding lookup succeed; and the
lookup is the only consumer of the context ids: two in-range context id
tensors that select equal embedding rows give identical forward outputs. -/
theorem c9_context_id_range {B S nh hd I N V maxP TV : ℕ}
    (w : ContextBertModelWeights nh hd I N V maxP TV)
    (input_ids : Fin B → Fin S → ℕ)
    (token_type_ids : Option (Fin B → Fin S → ℕ))
    (attention_mask : Option (Fin B → Fin S → ℝ))
    (context_ids cids1 cids2 : Fin B → ℕ) :
    ((∃ b, 8 ≤ context_ids b) →
      contextBertModelForward w input_ids token_type_ids attention_mask context_ids = none) ∧
    ((∀ b, context_ids b < 8) →
      (contextEmbLookup w.context_embeddings context_ids).isSome = true) ∧
    (∀ (h1 : ∀ b, cids1 b < 8) (h2 : ∀ b, cids2 b < 8),
      (∀ b, w.context_embeddings ⟨cids1 b, h1 b⟩ = w.context_embeddings ⟨cids2 b, h2 b⟩) →
      contextBertModelForward w input_ids token_type_ids attention_mask cids1 =
        contextBertModelForward w input_ids token_type_ids attention_mask cids2) := by
  refine ⟨?_, ?_, ?_⟩
  · rintro ⟨b, hb⟩
    have hlk : contextEmbLookup w.context_embeddings context_ids = none := by
      rw [contextEmbLookup, dif_neg]
      push_neg
      exact ⟨b, by omega⟩
    unfold contextBertModelForward
    cases hemb : bertEmbeddingsForward w.embeddings input_ids
        (some (token_type_ids.getD (fun _ _ => 0))) <;>
      simp [hemb, hlk]
  · intro hin
    rw [contextEmbLookup, dif_pos hin]
    rfl
  · intro h1 h2 heq
    have hfun : contextEmbLookup w.context_embeddings cids1 =
        contextEmbLookup w.context_embeddings cids2 := by
      rw [contextEmbLookup, contextEmbLookup, dif_pos h1, dif_pos h2]
      exact congrArg some (funext heq)
    unfold contextBertModelForward
    rw [hfun]

/-- Witness for C9: out-of-range id 9 makes the concrete forward call fail,
and the in-range id 3 makes the lookup succeed. -/
theorem c9_context_id_range_witness :
    contextBertModelForward zeroModelW (fun (_ : Fin 1) (_ : Fin 1) => (0 : ℕ))
      (none : Option (Fin 1 → Fin 1 → ℕ)) (none : Option (Fin 1 → Fin 1 → ℝ))
      (fun _ => 9) = none ∧
    (contextEmbLookup zeroModelW.context_embeddings (fun (_ : Fin 1) => 3)).isSome = true :=
  ⟨(c9_context_id_range zeroModelW (fun (_ : Fin 1) (_ : Fin 1) => (0 : ℕ)) none none
      (fun _ => 9) (fun _ => 0) (fun _ => 0)).1 ⟨0, by norm_num⟩,
   (c9_context_id_range zeroModelW (fun (_ : Fin 1) (_ : Fin 1) => (0 : ℕ)) none none
      (fun _ => 3) (fun _ => 0) (fun _ => 0)).2.1 (fun _ => by norm_num)⟩

/-- C10: omitting attention_mask behaves exactly as supplying an all-ones
mask, and omitting token_type_ids behaves exactly as supplying an all-zero
segment-id tensor, both for the full model forward and for the embedding
stage (whose own default also fills zeros). -/
theorem c10_default_arguments {B S nh hd I N V maxP TV : ℕ}
    (w : ContextBertModelWeights nh hd I N V maxP TV)
    (input_ids : Fin B → Fin S → ℕ)
    (tti : Fin B → Fin S → ℕ) (am : Fin B → Fin S → ℝ)
    (context_ids : Fin B → ℕ) :
    (contextBertModelForward w input_ids (some tti) none context_ids =
      contextBertModelForward w input_ids (some tti) (some (fun _ _ => 1)) context_ids) ∧
    (contextBertModelForward w input_ids none (some am) context_ids =
      contextBertModelForward w input_ids (some (fun _ _ => 0)) (some am) context_ids) ∧
    (contextBertModelForward w input_ids none none context_ids =
      contextBertModelForward w input_ids (some (fun _ _ => 0)) (some (fun _ _ => 1))
        context_ids) ∧
    (bertEmbeddingsForward w.embeddings input_ids none =
      bertEmbeddingsForward w.embeddings input_ids (some (fun _ _ => 0))) :=
  ⟨rfl, rfl, rfl, rfl⟩

end CGBERT
